import Mathlib

/-!
Shallow embedding of the `DatabaseService` / `DatabaseInterface` pair of
`src/src/database.cpp` and `src/include/database_interface.h`.

The backend interface is modelled as a structure of pure response functions:
one value fixes the backend's responses at one call time (`isConnected` is a
side-effect-free query, so it is a plain `Bool`).  Interface methods that
`DatabaseService` never consults (`disconnect`, `updateUser`,
`getAllUserNames`, `executeQuery`, `getLastError`, `clearError`) are omitted:
no service operation can reach them.

Each service operation returns its C++ return value, the service state after
the call, and the list of backend invocations it performed, in order.  The
gated operations dereference `database_` without a null check, so they return
an `Option`: `none` models the null-pointer dereference that C++ would hit if
the gate were passed with an unbound backend.  `initializeConnection` checks
for null first and therefore never crashes.
-/

/-- The part of the abstract `DatabaseInterface` that `DatabaseService`
consults, as pure response functions. -/
structure DatabaseInterface where
  connect : String → Bool
  isConnected : Bool
  insertUser : String → Int → Bool
  getUserName : Int → String
  getUserAge : Int → Int
  deleteUser : Int → Bool
  getUserCount : Int

/-- One observable invocation of a backend method; service operations record
the invocations they perform, in order. -/
inductive BackendCall where
  | connect (connectionString : String)
  | isConnected
  | insertUser (name : String) (age : Int)
  | getUserName (userId : Int)
  | getUserAge (userId : Int)
  | deleteUser (userId : Int)
  | getUserCount
  deriving DecidableEq

/-- The state of a `DatabaseService`: the (possibly null) shared pointer to
the backend and the initialization gate flag. -/
structure DatabaseService where
  database_ : Option DatabaseInterface
  initialized_ : Bool

/-- The constructor `DatabaseService(std::shared_ptr<DatabaseInterface> db)`:
binds the backend and leaves `initialized_` at its in-class `false` default. -/
def DatabaseService.construct (db : Option DatabaseInterface) : DatabaseService :=
  { database_ := db, initialized_ := false }

/-- `bool DatabaseService::initializeConnection(const std::string&)`: returns
false at once when no backend is bound; otherwise calls `connect` on the
backend, sets `initialized_` on success, and returns `connect`'s result. -/
def DatabaseService.initializeConnection (s : DatabaseService)
    (connectionString : String) : Bool × DatabaseService × List BackendCall :=
  match s.database_ with
  | none => (false, s, [])
  | some db =>
      let connected := db.connect connectionString
      (connected,
       if connected then { s with initialized_ := true } else s,
       [BackendCall.connect connectionString])

/-- `bool DatabaseService::createUser(const std::string&, int)`: the gate
`!initialized_ || !database_->isConnected()` short-circuits, so `isConnected`
is only reached (and `database_` only dereferenced) when `initialized_` is
true; past the gate it delegates to `insertUser`. -/
def DatabaseService.createUser (s : DatabaseService) (name : String)
    (age : Int) : Option (Bool × DatabaseService × List BackendCall) :=
  if s.initialized_ = false then some (false, s, []) else
    match s.database_ with
    | none => none
    | some db =>
        if db.isConnected = false then some (false, s, [BackendCall.isConnected])
        else some (db.insertUser name age, s,
          [BackendCall.isConnected, BackendCall.insertUser name age])

/-- `std::string DatabaseService::getUserInfo(int)`: past the gate it calls
`getUserName` and then, unconditionally, `getUserAge`; only afterwards does it
test `name.empty()`, returning the empty string for an absent user and the
formatted `"Name: " + name + ", Age: " + std::to_string(age)` otherwise. -/
def DatabaseService.getUserInfo (s : DatabaseService) (userId : Int) :
    Option (String × DatabaseService × List BackendCall) :=
  if s.initialized_ = false then some ("", s, []) else
    match s.database_ with
    | none => none
    | some db =>
        if db.isConnected = false then some ("", s, [BackendCall.isConnected])
        else
          let name := db.getUserName userId
          let age := db.getUserAge userId
          let calls := [BackendCall.isConnected, BackendCall.getUserName userId,
            BackendCall.getUserAge userId]
          if name.isEmpty then some ("", s, calls)
          else some ("Name: " ++ name ++ ", Age: " ++ toString age, s, calls)

/-- `bool DatabaseService::removeUser(int)`: same gate as `createUser`; past
it, delegates to `deleteUser`. -/
def DatabaseService.removeUser (s : DatabaseService) (userId : Int) :
    Option (Bool × DatabaseService × List BackendCall) :=
  if s.initialized_ = false then some (false, s, []) else
    match s.database_ with
    | none => none
    | some db =>
        if db.isConnected = false then some (false, s, [BackendCall.isConnected])
        else some (db.deleteUser userId, s,
          [BackendCall.isConnected, BackendCall.deleteUser userId])

/-- `int DatabaseService::getTotalUsers()`: same gate, sentinel -1; past it,
delegates to `getUserCount`. -/
def DatabaseService.getTotalUsers (s : DatabaseService) :
    Option (Int × DatabaseService × List BackendCall) :=
  if s.initialized_ = false then some (-1, s, []) else
    match s.database_ with
    | none => none
    | some db =>
        if db.isConnected = false then some (-1, s, [BackendCall.isConnected])
        else some (db.getUserCount, s,
          [BackendCall.isConnected, BackendCall.getUserCount])

/-- One public operation of the service, for reasoning about operation
sequences. -/
inductive Op where
  | initOp (connectionString : String)
  | createOp (name : String) (age : Int)
  | infoOp (userId : Int)
  | removeOp (userId : Int)
  | totalOp

/-- The service state after one operation; `none` models a null-pointer
dereference. -/
def runOp (s : DatabaseService) : Op → Option DatabaseService
  | Op.initOp connectionString =>
      some (s.initializeConnection connectionString).2.1
  | Op.createOp name age => (s.createUser name age).map fun r => r.2.1
  | Op.infoOp userId => (s.getUserInfo userId).map fun r => r.2.1
  | Op.removeOp userId => (s.removeUser userId).map fun r => r.2.1
  | Op.totalOp => s.getTotalUsers.map fun r => r.2.1

/-- The service state after a sequence of operations. -/
def runOps (s : DatabaseService) : List Op → Option DatabaseService
  | [] => some s
  | op :: rest => (runOp s op).bind fun s2 => runOps s2 rest

/-- A sample backend whose `getUserName` answers the empty string for every
id (user absent) while `getUserAge` would answer 99. -/
def absentUserBackend : DatabaseInterface where
  connect := fun _ => true
  isConnected := true
  insertUser := fun _ _ => false
  getUserName := fun _ => ""
  getUserAge := fun _ => 99
  deleteUser := fun _ => false
  getUserCount := 0

/-- A sample backend holding the user "Alice", aged 25. -/
def aliceBackend : DatabaseInterface where
  connect := fun _ => true
  isConnected := true
  insertUser := fun _ _ => true
  getUserName := fun _ => "Alice"
  getUserAge := fun _ => 25
  deleteUser := fun _ => true
  getUserCount := 1

/-- A backend agreeing with `aliceBackend` on the responses `getUserInfo`
reads (isConnected, getUserName, getUserAge) but differing elsewhere. -/
def aliceBackendRetry : DatabaseInterface where
  connect := fun _ => false
  isConnected := true
  insertUser := fun _ _ => false
  getUserName := fun _ => "Alice"
  getUserAge := fun _ => 25
  deleteUser := fun _ => false
  getUserCount := 5

/-- Helper: the gated `createUser` never changes the service state. -/
theorem createUser_state (s : DatabaseService) (name : String) (age : Int)
    (r : Bool × DatabaseService × List BackendCall)
    (h : s.createUser name age = some r) : r.2.1 = s := by
  unfold DatabaseService.createUser at h
  split at h
  · injection h with h; subst h; rfl
  · split at h
    · exact Option.noConfusion h
    · split at h
      · injection h with h; subst h; rfl
      · injection h with h; subst h; rfl

/-- Helper: the gated `getUserInfo` never changes the service state. -/
theorem getUserInfo_state (s : DatabaseService) (userId : Int)
    (r : String × DatabaseService × List BackendCall)
    (h : s.getUserInfo userId = some r) : r.2.1 = s := by
  unfold DatabaseService.getUserInfo at h
  split at h
  · injection h with h; subst h; rfl
  · split at h
    · exact Option.noConfusion h
    · split at h
      · injection h with h; subst h; rfl
      · dsimp only at h
        split at h
        · injection h with h; subst h; rfl
        · injection h with h; subst h; rfl

/-- Helper: the gated `removeUser` never changes the service state. -/
theorem removeUser_state (s : DatabaseService) (userId : Int)
    (r : Bool × DatabaseService × List BackendCall)
    (h : s.removeUser userId = some r) : r.2.1 = s := by
  unfold DatabaseService.removeUser at h
  split at h
  · injection h with h; subst h; rfl
  · split at h
    · exact Option.noConfusion h
    · split at h
      · injection h with h; subst h; rfl
      · injection h with h; subst h; rfl

/-- Helper: the gated `getTotalUsers` never changes the service state. -/
theorem getTotalUsers_state (s : DatabaseService)
    (r : Int × DatabaseService × List BackendCall)
    (h : s.getTotalUsers = some r) : r.2.1 = s := by
  unfold DatabaseService.getTotalUsers at h
  split at h
  · injection h with h; subst h; rfl
  · split at h
    · exact Option.noConfusion h
    · split at h
      · injection h with h; subst h; rfl
      · injection h with h; subst h; rfl

/-- Helper: `initializeConnection` never clears the gate flag. -/
theorem initializeConnection_mono (s : DatabaseService) (cs : String)
    (hi : s.initialized_ = true) :
    (s.initializeConnection cs).2.1.initialized_ = true := by
  unfold DatabaseService.initializeConnection
  split
  · exact hi
  · dsimp only
    split
    · rfl
    · exact hi

/-- Helper: no single operation clears the gate flag. -/
theorem runOp_initialized_mono (s : DatabaseService) (op : Op)
    (s2 : DatabaseService) (h : runOp s op = some s2)
    (hi : s.initialized_ = true) : s2.initialized_ = true := by
  cases op with
  | initOp cs =>
      unfold runOp at h
      injection h with h
      subst h
      exact initializeConnection_mono s cs hi
  | createOp name age =>
      unfold runOp at h
      rcases Option.map_eq_some'.mp h with ⟨r, hr, hs2⟩
      rw [← hs2, createUser_state s name age r hr]
      exact hi
  | infoOp userId =>
      unfold runOp at h
      rcases Option.map_eq_some'.mp h with ⟨r, hr, hs2⟩
      rw [← hs2, getUserInfo_state s userId r hr]
      exact hi
  | removeOp userId =>
      unfold runOp at h
      rcases Option.map_eq_some'.mp h with ⟨r, hr, hs2⟩
      rw [← hs2, removeUser_state s userId r hr]
      exact hi
  | totalOp =>
      unfold runOp at h
      rcases Option.map_eq_some'.mp h with ⟨r, hr, hs2⟩
      rw [← hs2, getTotalUsers_state s r hr]
      exact hi

/-- Helper: no operation sequence clears the gate flag. -/
theorem runOps_initialized_mono (ops : List Op) :
    ∀ s s2 : DatabaseService, runOps s ops = some s2 →
      s.initialized_ = true → s2.initialized_ = true := by
  induction ops with
  | nil =>
      intro s s2 h hi
      unfold runOps at h
      injection h with h
      subst h
      exact hi
  | cons op rest ih =>
      intro s s2 h hi
      unfold runOps at h
      rcases Option.bind_eq_some.mp h with ⟨s1, h1, h2⟩
      exact ih s1 s2 h2 (runOp_initialized_mono s op s1 h1 hi)

/-- C1: every gated operation invoked while the service is Uninitialized
(`initialized_ = false`) returns its negative sentinel (false for createUser
and removeUser, the empty string for getUserInfo, -1 for getTotalUsers),
leaves the state unchanged, and performs no backend invocation at all (empty
call trace), in particular not the corresponding data method. -/
theorem c1_uninitialized_sentinels (s : DatabaseService)
    (h : s.initialized_ = false) :
    (∀ name age, s.createUser name age = some (false, s, [])) ∧
    (∀ userId, s.getUserInfo userId = some ("", s, [])) ∧
    (∀ userId, s.removeUser userId = some (false, s, [])) ∧
    s.getTotalUsers = some (-1, s, []) := by
  refine ⟨fun name age => ?_, fun userId => ?_, fun userId => ?_, ?_⟩ <;>
    simp [DatabaseService.createUser, DatabaseService.getUserInfo,
      DatabaseService.removeUser, DatabaseService.getTotalUsers, h]

/-- C1 witness: the freshly constructed service is Uninitialized and
createUser answers the sentinel with an empty call trace. -/
theorem c1_uninitialized_sentinels_witness :
    (DatabaseService.construct (some aliceBackend)).initialized_ = false ∧
    (DatabaseService.construct (some aliceBackend)).createUser "Alice" 25 =
      some (false, DatabaseService.construct (some aliceBackend), []) :=
  ⟨rfl, (c1_uninitialized_sentinels (DatabaseService.construct (some aliceBackend))
    rfl).1 "Alice" 25⟩

/-- C2 counterexample: with an Initialized service over a connected backend
whose `getUserName 7` is empty, the call trace of `getUserInfo 7` contains
`getUserAge 7` — the age lookup IS invoked, contrary to the claim (the result
is still the empty string). -/
theorem c2_counterexample :
    (DatabaseService.mk (some absentUserBackend) true).getUserInfo 7 =
      some ("", DatabaseService.mk (some absentUserBackend) true,
        [BackendCall.isConnected, BackendCall.getUserName 7,
          BackendCall.getUserAge 7]) ∧
    BackendCall.getUserAge 7 ∈
      [BackendCall.isConnected, BackendCall.getUserName 7,
        BackendCall.getUserAge 7] :=
  ⟨rfl, by simp⟩

/-- C2 (amended): when the gate passes and the backend's `getUserName`
answers the empty string, `getUserInfo` returns the empty string, but the
backend's `getUserAge` IS invoked (it appears in the call trace,
unconditionally, before the empty-name test); its result is ignored. -/
theorem c2_empty_name_age_still_invoked (s : DatabaseService)
    (db : DatabaseInterface) (userId : Int) (hdb : s.database_ = some db)
    (hinit : s.initialized_ = true) (hconn : db.isConnected = true)
    (hname : db.getUserName userId = "") :
    s.getUserInfo userId =
      some ("", s, [BackendCall.isConnected, BackendCall.getUserName userId,
        BackendCall.getUserAge userId]) := by
  simp [DatabaseService.getUserInfo, hdb, hinit, hconn, hname,
    String.isEmpty_iff]

/-- C2 witness: the amended statement at the concrete absent-user backend. -/
theorem c2_empty_name_age_still_invoked_witness :
    (DatabaseService.mk (some absentUserBackend) true).getUserInfo 7 =
      some ("", DatabaseService.mk (some absentUserBackend) true,
        [BackendCall.isConnected, BackendCall.getUserName 7,
          BackendCall.getUserAge 7]) :=
  c2_empty_name_age_still_invoked _ absentUserBackend 7 rfl rfl rfl rfl

/-- C3: for an Initialized service over a connected backend whose
`getUserName userId` is empty, `getUserInfo userId` returns the empty string
whatever function `g` stands in for `getUserAge`. -/
theorem c3_short_circuit_law (db : DatabaseInterface) (g : Int → Int)
    (userId : Int) (hconn : db.isConnected = true)
    (hname : db.getUserName userId = "") :
    ((DatabaseService.mk (some { db with getUserAge := g }) true).getUserInfo
      userId).map Prod.fst = some "" := by
  simp [DatabaseService.getUserInfo, hconn, hname, String.isEmpty_iff]

/-- C3 witness: the law at the absent-user backend with an overridden age. -/
theorem c3_short_circuit_law_witness :
    ((DatabaseService.mk
      (some { absentUserBackend with getUserAge := fun _ => 123 })
      true).getUserInfo 7).map Prod.fst = some "" :=
  c3_short_circuit_law absentUserBackend (fun _ => 123) 7 rfl rfl

/-- C4: past the gate, when the backend's name for `userId` is non-empty,
`getUserInfo` returns exactly the literal "Name: " ++ name ++ ", Age: " ++
the decimal rendering of the age. -/
theorem c4_formatting (s : DatabaseService) (db : DatabaseInterface)
    (userId : Int) (hdb : s.database_ = some db)
    (hinit : s.initialized_ = true) (hconn : db.isConnected = true)
    (hname : db.getUserName userId ≠ "") :
    (s.getUserInfo userId).map Prod.fst =
      some ("Name: " ++ db.getUserName userId ++ ", Age: " ++
        toString (db.getUserAge userId)) := by
  simp [DatabaseService.getUserInfo, hdb, hinit, hconn, String.isEmpty_iff,
    hname]

/-- C4 witness: for the backend answering name "Alice" and age 25 the result
is exactly "Name: Alice, Age: 25". -/
theorem c4_formatting_witness :
    ((DatabaseService.mk (some aliceBackend) true).getUserInfo 1).map
      Prod.fst = some "Name: Alice, Age: 25" :=
  (c4_formatting (DatabaseService.mk (some aliceBackend) true) aliceBackend 1
    rfl rfl rfl (by decide)).trans (by decide)

/-- C5: with no backend bound, `initializeConnection` returns false, leaves
the state unchanged (so `initialized_` stays false), and performs no backend
invocation, for every connection descriptor. -/
theorem c5_null_backend_fails_fast (s : DatabaseService)
    (connectionString : String) (h : s.database_ = none) :
    s.initializeConnection connectionString = (false, s, []) := by
  simp [DatabaseService.initializeConnection, h]

/-- C5 witness: the freshly constructed backend-less service at a concrete
descriptor. -/
theorem c5_null_backend_fails_fast_witness :
    (DatabaseService.construct none).initializeConnection "db://test" =
      (false, DatabaseService.construct none, []) :=
  c5_null_backend_fails_fast (DatabaseService.construct none) "db://test" rfl

/-- C6: with a bound backend, `initializeConnection` invokes `connect` on the
descriptor and returns its result; on success the state becomes Initialized
(`initialized_ := true`), on failure it is unchanged. -/
theorem c6_initialize_transition (s : DatabaseService)
    (db : DatabaseInterface) (connectionString : String)
    (h : s.database_ = some db) :
    s.initializeConnection connectionString =
      (db.connect connectionString,
       if db.connect connectionString then { s with initialized_ := true }
       else s,
       [BackendCall.connect connectionString]) := by
  simp [DatabaseService.initializeConnection, h]

/-- C6 witness: connecting the fresh service over `aliceBackend` (whose
connect always succeeds) returns true and sets the gate flag. -/
theorem c6_initialize_transition_witness :
    (DatabaseService.construct (some aliceBackend)).initializeConnection
      "db" = (true, DatabaseService.mk (some aliceBackend) true,
        [BackendCall.connect "db"]) := by
  have h := c6_initialize_transition
    (DatabaseService.construct (some aliceBackend)) aliceBackend "db" rfl
  simpa [DatabaseService.construct, aliceBackend] using h

/-- C7: once `initialized_` is true, no sequence of service operations ever
clears it (no path back to Uninitialized); moreover each gated operation
leaves the whole service state unchanged, so only `initializeConnection` ever
writes the flag. -/
theorem c7_initialized_is_stable :
    (∀ (s : DatabaseService) (ops : List Op) (s2 : DatabaseService),
      runOps s ops = some s2 → s.initialized_ = true →
        s2.initialized_ = true) ∧
    (∀ (s : DatabaseService) name age r, s.createUser name age = some r →
      r.2.1 = s) ∧
    (∀ (s : DatabaseService) userId r, s.getUserInfo userId = some r →
      r.2.1 = s) ∧
    (∀ (s : DatabaseService) userId r, s.removeUser userId = some r →
      r.2.1 = s) ∧
    (∀ (s : DatabaseService) r, s.getTotalUsers = some r → r.2.1 = s) :=
  ⟨fun s ops s2 h hi => runOps_initialized_mono ops s s2 h hi,
   fun s name age r h => createUser_state s name age r h,
   fun s userId r h => getUserInfo_state s userId r h,
   fun s userId r h => removeUser_state s userId r h,
   fun s r h => getTotalUsers_state s r h⟩

/-- C8: past the gate (Initialized and backend connected), each gated
operation delegates to its backend counterpart and returns that result
verbatim: createUser to insertUser, removeUser to deleteUser, getTotalUsers
to getUserCount. -/
theorem c8_delegation (s : DatabaseService) (db : DatabaseInterface)
    (hdb : s.database_ = some db) (hinit : s.initialized_ = true)
    (hconn : db.isConnected = true) :
    (∀ name age, s.createUser name age =
      some (db.insertUser name age, s,
        [BackendCall.isConnected, BackendCall.insertUser name age])) ∧
    (∀ userId, s.removeUser userId =
      some (db.deleteUser userId, s,
        [BackendCall.isConnected, BackendCall.deleteUser userId])) ∧
    s.getTotalUsers = some (db.getUserCount, s,
      [BackendCall.isConnected, BackendCall.getUserCount]) := by
  refine ⟨fun name age => ?_, fun userId => ?_, ?_⟩ <;>
    simp [DatabaseService.createUser, DatabaseService.removeUser,
      DatabaseService.getTotalUsers, hdb, hinit, hconn]

/-- C8 witness: over the connected `aliceBackend`, getTotalUsers returns the
backend's getUserCount verbatim. -/
theorem c8_delegation_witness :
    (DatabaseService.mk (some aliceBackend) true).getTotalUsers =
      some (aliceBackend.getUserCount,
        DatabaseService.mk (some aliceBackend) true,
        [BackendCall.isConnected, BackendCall.getUserCount]) :=
  (c8_delegation (DatabaseService.mk (some aliceBackend) true) aliceBackend
    rfl rfl rfl).2.2

/-- C9: two `getUserInfo` calls against backends whose responses agree on
everything the call reads (gate flag, isConnected, getUserName, getUserAge at
the queried id) produce identical result strings. -/
theorem c9_idempotent_reads (db1 db2 : DatabaseInterface)
    (s1 s2 : DatabaseService) (userId : Int) (h1 : s1.database_ = some db1)
    (h2 : s2.database_ = some db2) (hi : s1.initialized_ = s2.initialized_)
    (hc : db1.isConnected = db2.isConnected)
    (hn : db1.getUserName userId = db2.getUserName userId)
    (ha : db1.getUserAge userId = db2.getUserAge userId) :
    (s1.getUserInfo userId).map Prod.fst =
      (s2.getUserInfo userId).map Prod.fst := by
  cases hb : s1.initialized_ with
  | false =>
      have hb2 : s2.initialized_ = false := hi.symm.trans hb
      simp [DatabaseService.getUserInfo, hb, hb2]
  | true =>
      have hb2 : s2.initialized_ = true := hi.symm.trans hb
      cases hc1 : db1.isConnected with
      | false =>
          have hc2 : db2.isConnected = false := hc.symm.trans hc1
          simp [DatabaseService.getUserInfo, hb, hb2, h1, h2, hc1, hc2]
      | true =>
          have hc2 : db2.isConnected = true := hc.symm.trans hc1
          simp [DatabaseService.getUserInfo, hb, hb2, h1, h2, hc1, hc2, hn,
            ha]
          cases hne : (db2.getUserName userId).isEmpty <;> simp [hne]

/-- C9 witness: two backends that answer identically for user 1 but differ
elsewhere give the same formatted string. -/
theorem c9_idempotent_reads_witness :
    ((DatabaseService.mk (some aliceBackend) true).getUserInfo 1).map
      Prod.fst =
    ((DatabaseService.mk (some aliceBackendRetry) true).getUserInfo 1).map
      Prod.fst :=
  c9_idempotent_reads aliceBackend aliceBackendRetry
    (DatabaseService.mk (some aliceBackend) true)
    (DatabaseService.mk (some aliceBackendRetry) true) 1 rfl rfl rfl rfl rfl
    rfl

/-- C10: a service constructed with a null backend pointer is safe: every
operation sequence runs without ever dereferencing the backend (`runOps`
returns `some`, never the crash marker) and leaves the state at
Uninitialized-with-null, and each single operation returns its sentinel with
an empty call trace (so `isConnected` is never evaluated on the null
backend). -/
theorem c10_null_backend_safety :
    (∀ ops : List Op, runOps (DatabaseService.construct none) ops =
      some (DatabaseService.construct none)) ∧
    (∀ connectionString,
      (DatabaseService.construct none).initializeConnection
        connectionString = (false, DatabaseService.construct none, [])) ∧
    (∀ name age, (DatabaseService.construct none).createUser name age =
      some (false, DatabaseService.construct none, [])) ∧
    (∀ userId, (DatabaseService.construct none).getUserInfo userId =
      some ("", DatabaseService.construct none, [])) ∧
    (∀ userId, (DatabaseService.construct none).removeUser userId =
      some (false, DatabaseService.construct none, [])) ∧
    (DatabaseService.construct none).getTotalUsers =
      some (-1, DatabaseService.construct none, []) := by
  refine ⟨?_, fun _ => rfl, fun _ _ => rfl, fun _ => rfl, fun _ => rfl, rfl⟩
  intro ops
  induction ops with
  | nil => rfl
  | cons op rest ih =>
      have hop : runOp (DatabaseService.construct none) op =
          some (DatabaseService.construct none) := by cases op <;> rfl
      simp [runOps, hop, ih]
